import Mathlib

/-!
Verification of the SMNTC semantic-resolution and state-orchestration core.

Shallow embedding of the TypeScript sources:
* `src/physics/spring.ts`        — `Spring`, `SpringBank`
* `src/semantic/registry.ts`     — token registry, presets, `applyPreset`
* `src/semantic/dictionary.ts`   — `resolveConstants`, `clamp`, `DEFAULTS`
* `src/performance/auto-scaler.ts` — `AutoScaler`
* `src/kernel/SMNTCKernel.ts`    — the orchestrator (config, uniforms,
  cached springs, semantic setters, `configure`, `update`, `dispose`)

Numbers are modelled as exact rationals (`ℚ`); JavaScript doubles such as
`16.6`, `1.15` or `Math.PI` are represented by the rational value of their
decimal literal.  Fallible operations (TypeScript `throw`) are modelled by
returning the mutated-so-far state together with a success flag or an
`Except`, matching the fact that a JavaScript exception does not roll back
field assignments that happened before the `throw`.
-/

-- ===========================================================================
-- Spring physics engine (src/physics/spring.ts)
-- ===========================================================================

/-- Spring physics configuration (`SpringConfig` in `spring.ts`). -/
structure SpringConfig where
  stiffness : ℚ
  damping : ℚ
  mass : ℚ
  precision : ℚ
deriving DecidableEq, Inhabited

/-- The default spring configuration (`DEFAULT_SPRING`). -/
def DEFAULT_SPRING : SpringConfig :=
  { stiffness := 170, damping := 26, mass := 1, precision := 1/1000 }

/-- The mutable state of a single spring-animated scalar (class `Spring`):
`_value`, `_velocity`, `_target`, `_settled`. -/
structure Spring where
  value : ℚ
  velocity : ℚ
  target : ℚ
  settled : Bool
deriving DecidableEq, Inhabited

/-- `new Spring(initial)` — starts settled at the initial value. -/
def Spring.new (initial : ℚ) : Spring :=
  { value := initial, velocity := 0, target := initial, settled := true }

/-- `Spring.setTarget(target)`: only changes anything when the new target
differs from the current one. -/
def Spring.setTarget (s : Spring) (target : ℚ) : Spring :=
  if target ≠ s.target then
    { s with target := target, settled := false }
  else s

/-- `Spring.snap(value)`: immediately jump to a value (no animation). -/
def Spring.snap (s : Spring) (value : ℚ) : Spring :=
  { s with value := value, target := value, velocity := 0, settled := true }

/-- `Spring.step(dt)` advanced by `dt` seconds: semi-implicit Euler with the
`dt` safety clamp at 0.064 s and the precision-based settle check. -/
def Spring.step (cfg : SpringConfig) (s : Spring) (dt : ℚ) : Spring :=
  if s.settled then s
  else
    let safeDt := min dt (64/1000)
    let displacement := s.value - s.target
    let springForce := -cfg.stiffness * displacement
    let dampingForce := -cfg.damping * s.velocity
    let acceleration := (springForce + dampingForce) / cfg.mass
    let velocity := s.velocity + acceleration * safeDt
    let value := s.value + velocity * safeDt
    if |velocity| < cfg.precision ∧ |value - s.target| < cfg.precision then
      { s with value := s.target, velocity := 0, settled := true }
    else
      { s with value := value, velocity := velocity }

/-- A public call on a single spring. -/
inductive SpringCmd where
  | setTarget (t : ℚ)
  | snap (v : ℚ)
  | step (dt : ℚ)
deriving DecidableEq

/-- Apply one public call to a spring. -/
def Spring.apply (cfg : SpringConfig) (s : Spring) : SpringCmd → Spring
  | .setTarget t => s.setTarget t
  | .snap v => s.snap v
  | .step dt => Spring.step cfg s dt

/-- The state reached from `new Spring(initial)` after a sequence of public
calls. -/
def Spring.run (cfg : SpringConfig) (initial : ℚ) (cmds : List SpringCmd) : Spring :=
  cmds.foldl (Spring.apply cfg) (Spring.new initial)

-- ===========================================================================
-- SpringBank (src/physics/spring.ts)
-- ===========================================================================

/-- A bank of named springs (class `SpringBank`), keyed by uniform name. -/
structure SpringBank where
  springs : List (String × Spring)
  springConfig : SpringConfig
deriving DecidableEq

/-- `SpringBank.getValue(key)`: current value of a spring, `0` when the key
has no spring (`this.springs.get(key)?.value ?? 0`).  The bank is returned
alongside the value to record that the call performs no mutation. -/
def SpringBank.getValue (b : SpringBank) (key : String) : ℚ × SpringBank :=
  (((b.springs.lookup key).map Spring.value).getD 0, b)

/-- `SpringBank.dispose()`: removes all springs. -/
def SpringBank.dispose (b : SpringBank) : SpringBank :=
  { b with springs := [] }

/-- Decidable equality for `Except`, used to evaluate embedded fallible
calls on concrete inputs. -/
instance {e a : Type} [DecidableEq e] [DecidableEq a] : DecidableEq (Except e a) := fun x y =>
  match x, y with
  | .ok u, .ok v =>
    if h : u = v then isTrue (by rw [h]) else isFalse (by intro hc; cases hc; exact h rfl)
  | .error u, .error v =>
    if h : u = v then isTrue (by rw [h]) else isFalse (by intro hc; cases hc; exact h rfl)
  | .ok _, .error _ => isFalse (by intro hc; cases hc)
  | .error _, .ok _ => isFalse (by intro hc; cases hc)

-- ===========================================================================
-- Token registry (src/semantic/registry.ts)
-- ===========================================================================

/-- `SurfaceDefinition`: discriminant mode index + noise scale. -/
structure SurfaceDefinition where
  mode : ℚ
  noiseScale : ℚ
deriving DecidableEq

/-- `VibeDefinition`: frequency, amplitude, damping, noise speed. -/
structure VibeDefinition where
  frequency : ℚ
  amplitude : ℚ
  damping : ℚ
  noiseSpeed : ℚ
deriving DecidableEq

/-- `ReactivityDefinition`: mode index, strength, radius. -/
structure ReactivityDefinition where
  mode : ℚ
  strength : ℚ
  radius : ℚ
deriving DecidableEq

/-- `FidelityDefinition`: segment count and wireframe line width. -/
structure FidelityDefinition where
  segments : ℚ
  wireframeWidth : ℚ
deriving DecidableEq

/-- `PaletteDefinition`: three RGB triplets normalized to [0,1]. -/
structure PaletteDefinition where
  primary : ℚ × ℚ × ℚ
  accent : ℚ × ℚ × ℚ
  background : ℚ × ℚ × ℚ
deriving DecidableEq

/-- Value of one lowercase hex digit (`parseInt(−, 16)` on the digits used
by the source's palette tables). -/
def hexVal (c : Char) : ℕ :=
  if c.isDigit then c.toNat - 48
  else if c.isLower then c.toNat - 97 + 10
  else 0

/-- Value of a two-hex-digit pair, normalized to [0,1]
(`parseInt(h.substring(i, i+2), 16) / 255`). -/
def hexPair (a b : Char) : ℚ :=
  ((hexVal a * 16 + hexVal b : ℕ) : ℚ) / 255

/-- `hexToRGB`: `'#rrggbb'` → normalized RGB triplet. -/
def hexToRGB (hex : String) : ℚ × ℚ × ℚ :=
  match (hex.replace "#" "").toList with
  | [r1, r2, g1, g2, b1, b2] => (hexPair r1 r2, hexPair g1 g2, hexPair b1 b2)
  | _ => (0, 0, 0)

/-- `BASE_SURFACE_MAP`, in source (insertion) order. -/
def BASE_SURFACE_MAP : List (String × SurfaceDefinition) :=
  [("topographic", { mode := 0, noiseScale := 1 }),
   ("crystalline", { mode := 1, noiseScale := 5/2 }),
   ("fluid",       { mode := 2, noiseScale := 3/5 }),
   ("glitch",      { mode := 3, noiseScale := 3 }),
   ("organic",     { mode := 4, noiseScale := 4/5 }),
   ("terrain",     { mode := 5, noiseScale := 3/2 }),
   ("plasma",      { mode := 6, noiseScale := 2 }),
   ("wave",        { mode := 7, noiseScale := 1/2 })]

/-- `BASE_VIBE_MAP`, in source order. -/
def BASE_VIBE_MAP : List (String × VibeDefinition) :=
  [("stable",    { frequency := 1/10,  amplitude := 1/50,  damping := 19/20,  noiseSpeed := 1/20 }),
   ("calm",      { frequency := 1/2,   amplitude := 2/25,  damping := 4/5,    noiseSpeed := 3/20 }),
   ("agitated",  { frequency := 5/2,   amplitude := 1/5,   damping := 2/5,    noiseSpeed := 3/5 }),
   ("chaotic",   { frequency := 5,     amplitude := 2/5,   damping := 1/20,   noiseSpeed := 3/2 }),
   ("breathing", { frequency := 2/25,  amplitude := 1/20,  damping := 49/50,  noiseSpeed := 3/100 }),
   ("pulse",     { frequency := 6/5,   amplitude := 3/20,  damping := 3/5,    noiseSpeed := 3/10 }),
   ("drift",     { frequency := 3/10,  amplitude := 3/50,  damping := 17/20,  noiseSpeed := 1/10 }),
   ("storm",     { frequency := 4,     amplitude := 7/20,  damping := 1/10,   noiseSpeed := 6/5 }),
   ("cinematic", { frequency := 1/5,   amplitude := 3/25,  damping := 9/10,   noiseSpeed := 2/25 })]

/-- `BASE_REACTIVITY_MAP`, in source order. -/
def BASE_REACTIVITY_MAP : List (String × ReactivityDefinition) :=
  [("static",    { mode := 0, strength := 0,   radius := 0 }),
   ("magnetic",  { mode := 1, strength := 1/2, radius := 2 }),
   ("repel",     { mode := 2, strength := 1/2, radius := 2 }),
   ("shockwave", { mode := 3, strength := 1,   radius := 4 })]

/-- `BASE_FIDELITY_MAP`, in source order. -/
def BASE_FIDELITY_MAP : List (String × FidelityDefinition) :=
  [("low",    { segments := 64,  wireframeWidth := 3/2 }),
   ("medium", { segments := 128, wireframeWidth := 1 }),
   ("high",   { segments := 256, wireframeWidth := 3/4 }),
   ("ultra",  { segments := 512, wireframeWidth := 1/2 })]

/-- `BASE_PALETTE_MAP`, in source order. -/
def BASE_PALETTE_MAP : List (String × PaletteDefinition) :=
  [("monochrome", { primary := hexToRGB "#e0e0e0", accent := hexToRGB "#ffffff", background := hexToRGB "#000000" }),
   ("ember",      { primary := hexToRGB "#ff6b35", accent := hexToRGB "#ffaa00", background := hexToRGB "#0a0a0a" }),
   ("arctic",     { primary := hexToRGB "#88ccff", accent := hexToRGB "#ffffff", background := hexToRGB "#050510" }),
   ("neon",       { primary := hexToRGB "#00ff88", accent := hexToRGB "#ff00ff", background := hexToRGB "#0a0a0a" }),
   ("phantom",    { primary := hexToRGB "#a0a0b0", accent := hexToRGB "#6060a0", background := hexToRGB "#08080c" }),
   ("ocean",      { primary := hexToRGB "#0077b6", accent := hexToRGB "#00b4d8", background := hexToRGB "#03071e" }),
   ("sunset",     { primary := hexToRGB "#f77f00", accent := hexToRGB "#d62828", background := hexToRGB "#0d0208" }),
   ("matrix",     { primary := hexToRGB "#00ff41", accent := hexToRGB "#008f11", background := hexToRGB "#000000" }),
   ("vapor",      { primary := hexToRGB "#ff71ce", accent := hexToRGB "#01cdfe", background := hexToRGB "#0a0012" }),
   ("gold",       { primary := hexToRGB "#ffd700", accent := hexToRGB "#daa520", background := hexToRGB "#0a0800" }),
   ("infrared",   { primary := hexToRGB "#ff0055", accent := hexToRGB "#ff6600", background := hexToRGB "#0a0005" }),
   ("aurora",     { primary := hexToRGB "#43b581", accent := hexToRGB "#7289da", background := hexToRGB "#020810" }),
   ("midnight",   { primary := hexToRGB "#c0c0c8", accent := hexToRGB "#4a6fa5", background := hexToRGB "#0a0e1a" })]

/-- Insertion-order-preserving upsert, the behavior of `Map.set`: an
existing key keeps its position and gets the new value; a new key is
appended. -/
def mapSet {α : Type} (l : List (String × α)) (k : String) (v : α) : List (String × α) :=
  match l with
  | [] => [(k, v)]
  | (k0, v0) :: rest => if k0 = k then (k, v) :: rest else (k0, v0) :: mapSet rest k v

/-- The five mutable token tables (`surfaceRegistry` … `paletteRegistry`),
gathered into one explicit registry state. -/
structure Registry where
  surfaces : List (String × SurfaceDefinition)
  vibes : List (String × VibeDefinition)
  reactivities : List (String × ReactivityDefinition)
  fidelities : List (String × FidelityDefinition)
  palettes : List (String × PaletteDefinition)
deriving DecidableEq

/-- The registry as seeded at process start from the `BASE_*` tables. -/
def baseRegistry : Registry :=
  { surfaces := BASE_SURFACE_MAP
    vibes := BASE_VIBE_MAP
    reactivities := BASE_REACTIVITY_MAP
    fidelities := BASE_FIDELITY_MAP
    palettes := BASE_PALETTE_MAP }

/-- `registerSurface(name, def)`. -/
def registerSurface (r : Registry) (name : String) (d : SurfaceDefinition) : Registry :=
  { r with surfaces := mapSet r.surfaces name d }

/-- `registerVibe(name, def)`. -/
def registerVibe (r : Registry) (name : String) (d : VibeDefinition) : Registry :=
  { r with vibes := mapSet r.vibes name d }

/-- `registerReactivity(name, def)`. -/
def registerReactivity (r : Registry) (name : String) (d : ReactivityDefinition) : Registry :=
  { r with reactivities := mapSet r.reactivities name d }

/-- `registerFidelity(name, def)`. -/
def registerFidelity (r : Registry) (name : String) (d : FidelityDefinition) : Registry :=
  { r with fidelities := mapSet r.fidelities name d }

/-- `registerPalette(name, def)`. -/
def registerPalette (r : Registry) (name : String) (d : PaletteDefinition) : Registry :=
  { r with palettes := mapSet r.palettes name d }

/-- `TokenRegistrySnapshot`: the names known per category. -/
structure TokenRegistrySnapshot where
  surfaces : List String
  vibes : List String
  reactivities : List String
  fidelities : List String
  palettes : List String
deriving DecidableEq

/-- `listTokens()`. -/
def listTokens (r : Registry) : TokenRegistrySnapshot :=
  { surfaces := r.surfaces.map Prod.fst
    vibes := r.vibes.map Prod.fst
    reactivities := r.reactivities.map Prod.fst
    fidelities := r.fidelities.map Prod.fst
    palettes := r.palettes.map Prod.fst }

/-- One runtime registration call (`register<Category>(name, definition)`). -/
inductive RegOp where
  | surface (name : String) (d : SurfaceDefinition)
  | vibe (name : String) (d : VibeDefinition)
  | reactivity (name : String) (d : ReactivityDefinition)
  | fidelity (name : String) (d : FidelityDefinition)
  | palette (name : String) (d : PaletteDefinition)
deriving DecidableEq

/-- Apply one registration call. -/
def applyRegOp (r : Registry) : RegOp → Registry
  | .surface name d => registerSurface r name d
  | .vibe name d => registerVibe r name d
  | .reactivity name d => registerReactivity r name d
  | .fidelity name d => registerFidelity r name d
  | .palette name d => registerPalette r name d

/-- Registry state after a sequence of runtime registrations. -/
def applyRegOps (r : Registry) (ops : List RegOp) : Registry :=
  ops.foldl applyRegOp r

-- ===========================================================================
-- Semantic dictionary (src/semantic/dictionary.ts)
-- ===========================================================================

/-- `SMNTCConfig`: a sparse configuration record; absent fields fall back to
documented defaults at resolution time. -/
structure SMNTCConfig where
  surface : Option String := none
  vibe : Option String := none
  reactivity : Option String := none
  fidelity : Option String := none
  palette : Option String := none
  wireframe : Option Bool := none
  intensity : Option ℚ := none
  speed : Option ℚ := none
  contourLines : Option ℚ := none
  thermalGuard : Option Bool := none
  angle : Option ℚ := none
  grain : Option ℚ := none
  glow : Option ℚ := none
  chromatic : Option ℚ := none
  vignette : Option ℚ := none
  blur : Option ℚ := none
deriving DecidableEq

/-- `DEFAULTS` of `dictionary.ts`, gathered into one record. -/
structure DefaultsRecord where
  surface : String
  vibe : String
  reactivity : String
  fidelity : String
  palette : String
  wireframe : Bool
  intensity : ℚ
  speed : ℚ
  contourLines : ℚ
  thermalGuard : Bool
  angle : ℚ
  grain : ℚ
  glow : ℚ
  chromatic : ℚ
  vignette : ℚ
  blur : ℚ
deriving DecidableEq

/-- `DEFAULTS`. -/
def DEFAULTS : DefaultsRecord :=
  { surface := "topographic", vibe := "calm", reactivity := "static"
    fidelity := "medium", palette := "monochrome", wireframe := true
    intensity := 1, speed := 1, contourLines := 16, thermalGuard := true
    angle := 0, grain := 0, glow := 0, chromatic := 0, vignette := 0, blur := 0 }

/-- `ShaderConstants`: the flat resolved output of the dictionary. -/
structure ShaderConstants where
  surfaceMode : ℚ
  frequency : ℚ
  amplitude : ℚ
  damping : ℚ
  noiseScale : ℚ
  noiseSpeed : ℚ
  reactivityMode : ℚ
  reactivityStrength : ℚ
  reactivityRadius : ℚ
  segments : ℚ
  wireframeWidth : ℚ
  primaryColor : ℚ × ℚ × ℚ
  accentColor : ℚ × ℚ × ℚ
  backgroundColor : ℚ × ℚ × ℚ
  wireframe : Bool
  intensity : ℚ
  speed : ℚ
  contourLines : ℚ
  angle : ℚ
  grain : ℚ
  glow : ℚ
  chromatic : ℚ
  vignette : ℚ
  blur : ℚ
deriving DecidableEq, Inhabited

/-- The saturating `clamp(v, min, max) = Math.max(min, Math.min(max, v))`
from `dictionary.ts`. -/
def clamp (v lo hi : ℚ) : ℚ :=
  max lo (min hi v)

/-- `resolveConstants(config)`: fill in category defaults, look each token
up in the registry, fail fast with the source's error message (naming the
offending value and all currently valid names) on the first unknown token,
then clamp the continuous knobs. -/
def resolveConstants (reg : Registry) (config : SMNTCConfig) : Except String ShaderConstants :=
  let surface := config.surface.getD DEFAULTS.surface
  let vibe := config.vibe.getD DEFAULTS.vibe
  let reactivity := config.reactivity.getD DEFAULTS.reactivity
  let fidelity := config.fidelity.getD DEFAULTS.fidelity
  let palette := config.palette.getD DEFAULTS.palette
  let available := listTokens reg
  match reg.surfaces.lookup surface with
  | none => .error ("[SMNTC] Invalid surface token: \"" ++ surface ++ "\". Expected: " ++ String.intercalate ", " available.surfaces)
  | some s =>
  match reg.vibes.lookup vibe with
  | none => .error ("[SMNTC] Invalid vibe token: \"" ++ vibe ++ "\". Expected: " ++ String.intercalate ", " available.vibes)
  | some v =>
  match reg.reactivities.lookup reactivity with
  | none => .error ("[SMNTC] Invalid reactivity token: \"" ++ reactivity ++ "\". Expected: " ++ String.intercalate ", " available.reactivities)
  | some r =>
  match reg.fidelities.lookup fidelity with
  | none => .error ("[SMNTC] Invalid fidelity token: \"" ++ fidelity ++ "\". Expected: " ++ String.intercalate ", " available.fidelities)
  | some f =>
  match reg.palettes.lookup palette with
  | none => .error ("[SMNTC] Invalid palette token: \"" ++ palette ++ "\". Expected: " ++ String.intercalate ", " available.palettes)
  | some p =>
    .ok
      { surfaceMode := s.mode
        frequency := v.frequency
        amplitude := v.amplitude
        damping := v.damping
        noiseScale := s.noiseScale
        noiseSpeed := v.noiseSpeed
        reactivityMode := r.mode
        reactivityStrength := r.strength
        reactivityRadius := r.radius
        segments := f.segments
        wireframeWidth := f.wireframeWidth
        primaryColor := p.primary
        accentColor := p.accent
        backgroundColor := p.background
        wireframe := config.wireframe.getD DEFAULTS.wireframe
        intensity := clamp (config.intensity.getD DEFAULTS.intensity) 0 2
        speed := clamp (config.speed.getD DEFAULTS.speed) 0 5
        contourLines := clamp (config.contourLines.getD DEFAULTS.contourLines) 4 64
        angle := clamp (config.angle.getD DEFAULTS.angle) 0 360
        grain := clamp (config.grain.getD DEFAULTS.grain) 0 1
        glow := clamp (config.glow.getD DEFAULTS.glow) 0 2
        chromatic := clamp (config.chromatic.getD DEFAULTS.chromatic) 0 1
        vignette := clamp (config.vignette.getD DEFAULTS.vignette) 0 1
        blur := clamp (config.blur.getD DEFAULTS.blur) 0 1 }

/-- State-threaded form of `resolveConstants`: the body only ever reads the
registry (lookups and `listTokens`), so the registry comes back unchanged.
This form makes the no-mutation half of the purity claim expressible. -/
def resolveConstantsSt (reg : Registry) (config : SMNTCConfig) :
    Except String ShaderConstants × Registry :=
  (resolveConstants reg config, reg)

-- ===========================================================================
-- Adaptive fidelity controller (src/performance/auto-scaler.ts)
-- ===========================================================================

/-- `AutoScalerOptions`, all optional. -/
structure AutoScalerOptions where
  targetFrameTime : Option ℚ := none
  sampleWindow : Option ℕ := none
  downgradeThreshold : Option ℕ := none
  upgradeThreshold : Option ℕ := none
  enabled : Option Bool := none
deriving DecidableEq

/-- `FIDELITY_LADDER`, the fixed ordered tier ladder. -/
def FIDELITY_LADDER : List String :=
  ["low", "medium", "high", "ultra"]

/-- The state of an `AutoScaler`: resolved options, the ring buffer with its
write cursor, fill count and running sum, the two streak counters, and the
current ladder index. -/
structure AutoScaler where
  targetFrameTime : ℚ
  sampleWindow : ℕ
  downgradeThreshold : ℕ
  upgradeThreshold : ℕ
  enabled : Bool
  frameTimes : List ℚ
  frameIndex : ℕ
  frameCount : ℕ
  runningSum : ℚ
  consecutiveBad : ℕ
  consecutiveGood : ℕ
  currentIndex : ℕ
deriving DecidableEq, Inhabited

/-- `new AutoScaler(initialFidelity, options)`.  `FIDELITY_LADDER.indexOf`
returns `-1` for an unknown name, which the constructor replaces by `1`
(medium); `List.indexOf` signals absence by returning the list's length. -/
def AutoScaler.new (initialFidelity : String) (options : AutoScalerOptions) : AutoScaler :=
  let sampleWindow := options.sampleWindow.getD 30
  let i := FIDELITY_LADDER.indexOf initialFidelity
  { targetFrameTime := options.targetFrameTime.getD (83/5)
    sampleWindow := sampleWindow
    downgradeThreshold := options.downgradeThreshold.getD 20
    upgradeThreshold := options.upgradeThreshold.getD 60
    enabled := options.enabled.getD true
    frameTimes := List.replicate sampleWindow 0
    frameIndex := 0
    frameCount := 0
    runningSum := 0
    consecutiveBad := 0
    consecutiveGood := 0
    currentIndex := if i = FIDELITY_LADDER.length then 1 else i }

/-- `currentFidelity`: `FIDELITY_LADDER[this.currentIndex]`. -/
def AutoScaler.currentFidelity (s : AutoScaler) : String :=
  FIDELITY_LADDER.getD s.currentIndex ""

/-- `resetBuffer()`. -/
def AutoScaler.resetBuffer (s : AutoScaler) : AutoScaler :=
  { s with frameTimes := List.replicate s.sampleWindow 0
           frameIndex := 0
           frameCount := 0
           runningSum := 0 }

/-- `reportFrame(deltaMs)`: ring-buffer insert with O(1) running sum, then
— once the window has filled — the rolling-average classification with
hysteresis streaks and the guarded one-step tier transitions.  The returned
`Option String` is the `onFidelityChange` notification. -/
def AutoScaler.reportFrame (s : AutoScaler) (deltaMs : ℚ) : AutoScaler × Option String :=
  if s.enabled = false then (s, none)
  else
    let runningSum :=
      if s.sampleWindow ≤ s.frameCount then s.runningSum - s.frameTimes.getD s.frameIndex 0
      else s.runningSum
    let frameTimes := s.frameTimes.set s.frameIndex deltaMs
    let runningSum := runningSum + deltaMs
    let frameIndex := (s.frameIndex + 1) % s.sampleWindow
    let frameCount := if s.frameCount < s.sampleWindow then s.frameCount + 1 else s.frameCount
    let s1 := { s with frameTimes := frameTimes, frameIndex := frameIndex,
                       frameCount := frameCount, runningSum := runningSum }
    if s1.frameCount < s1.sampleWindow then (s1, none)
    else
      let avg := s1.runningSum / (s1.sampleWindow : ℚ)
      if s1.targetFrameTime * (23/20) < avg then
        let s2 := { s1 with consecutiveBad := s1.consecutiveBad + 1, consecutiveGood := 0 }
        if s2.downgradeThreshold ≤ s2.consecutiveBad ∧ 0 < s2.currentIndex then
          let s3 := AutoScaler.resetBuffer { s2 with currentIndex := s2.currentIndex - 1, consecutiveBad := 0 }
          (s3, some s3.currentFidelity)
        else (s2, none)
      else if avg < s1.targetFrameTime * (3/4) then
        let s2 := { s1 with consecutiveGood := s1.consecutiveGood + 1, consecutiveBad := 0 }
        if s2.upgradeThreshold ≤ s2.consecutiveGood ∧ s2.currentIndex < FIDELITY_LADDER.length - 1 then
          let s3 := AutoScaler.resetBuffer { s2 with currentIndex := s2.currentIndex + 1, consecutiveGood := 0 }
          (s3, some s3.currentFidelity)
        else (s2, none)
      else
        ({ s1 with consecutiveBad := 0, consecutiveGood := 0 }, none)

/-- `setEnabled(enabled)`: disabling clears all accumulated state. -/
def AutoScaler.setEnabled (s : AutoScaler) (enabled : Bool) : AutoScaler :=
  let s := { s with enabled := enabled }
  if enabled = false then
    { s.resetBuffer with consecutiveBad := 0, consecutiveGood := 0 }
  else s

/-- `dispose()`: clears the buffer (the callback slot is outside this
state model). -/
def AutoScaler.dispose (s : AutoScaler) : AutoScaler :=
  s.resetBuffer

/-- A public call on an `AutoScaler`. -/
inductive ScalerCmd where
  | report (d : ℚ)
  | setEnabled (b : Bool)
  | dispose
deriving DecidableEq

/-- Apply one public call (the notification of `reportFrame` is dropped
here; `feedList` below keeps it). -/
def AutoScaler.applyCmd (s : AutoScaler) : ScalerCmd → AutoScaler
  | .report d => (s.reportFrame d).1
  | .setEnabled b => s.setEnabled b
  | .dispose => s.dispose

/-- The state reached from construction after a sequence of public calls. -/
def AutoScaler.run (initialFidelity : String) (options : AutoScalerOptions)
    (cmds : List ScalerCmd) : AutoScaler :=
  cmds.foldl AutoScaler.applyCmd (AutoScaler.new initialFidelity options)

/-- Feed a list of frame durations, collecting every fidelity-change
notification in order. -/
def AutoScaler.feedList (s : AutoScaler) : List ℚ → AutoScaler × List String
  | [] => (s, [])
  | d :: ds =>
    let r := s.reportFrame d
    let rest := AutoScaler.feedList r.1 ds
    (rest.1, r.2.toList ++ rest.2)

/-- Feed `n` constant frame durations. -/
def AutoScaler.feedN (s : AutoScaler) (d : ℚ) (n : ℕ) : AutoScaler × List String :=
  s.feedList (List.replicate n d)

/-- An `AutoScaler` with all-default options, as the kernel creates it for
the default `medium` fidelity. -/
def defaultScaler : AutoScaler :=
  AutoScaler.new "medium" {}

/-- The state an all-default `AutoScaler` reaches after `n` reports of the
constant, neutral duration `d`: the buffer fills with `d`, the cursor
wraps, the running sum tracks the fill level, and no streak accumulates. -/
def constState (d : ℚ) (n : ℕ) : AutoScaler :=
  { targetFrameTime := 83/5
    sampleWindow := 30
    downgradeThreshold := 20
    upgradeThreshold := 60
    enabled := true
    frameTimes := List.replicate (min n 30) d ++ List.replicate (30 - min n 30) 0
    frameIndex := n % 30
    frameCount := min n 30
    runningSum := ((min n 30 : ℕ) : ℚ) * d
    consecutiveBad := 0
    consecutiveGood := 0
    currentIndex := 1 }

/-- The state an all-default `AutoScaler` reaches after `n` reports
(`n ≤ 48`) of a constant duration strictly above 115% of the target: the
buffer fills, then the bad streak grows by one per report. -/
def slowState (d : ℚ) (n : ℕ) : AutoScaler :=
  { targetFrameTime := 83/5
    sampleWindow := 30
    downgradeThreshold := 20
    upgradeThreshold := 60
    enabled := true
    frameTimes := List.replicate (min n 30) d ++ List.replicate (30 - min n 30) 0
    frameIndex := n % 30
    frameCount := min n 30
    runningSum := ((min n 30 : ℕ) : ℚ) * d
    consecutiveBad := n - 29
    consecutiveGood := 0
    currentIndex := 1 }

/-- The state right after the downgrade at the 49th slow report: tier
`low`, streaks and buffer reset. -/
def downgradedState : AutoScaler :=
  { targetFrameTime := 83/5
    sampleWindow := 30
    downgradeThreshold := 20
    upgradeThreshold := 60
    enabled := true
    frameTimes := List.replicate 30 0
    frameIndex := 0
    frameCount := 0
    runningSum := 0
    consecutiveBad := 0
    consecutiveGood := 0
    currentIndex := 0 }

-- ===========================================================================
-- Presets (src/semantic/registry.ts)
-- ===========================================================================

/-- `PresetDefinition` (the fields `applyPreset` consumes): a name, default
configuration values, and optional per-category allow-lists.  A missing
`defaults` object spreads as nothing, which is the same as an all-absent
configuration. -/
structure PresetDefinition where
  name : String
  description : Option String := none
  defaults : SMNTCConfig := {}
  allowedSurfaces : Option (List String) := none
  allowedVibes : Option (List String) := none
  allowedReactivities : Option (List String) := none
  allowedFidelities : Option (List String) := none
  allowedPalettes : Option (List String) := none
deriving DecidableEq

/-- The spread `{...preset.defaults, ...config}`: a field explicitly present
in `config` wins over the preset default. -/
def mergeConfigs (defaults config : SMNTCConfig) : SMNTCConfig :=
  { surface := config.surface <|> defaults.surface
    vibe := config.vibe <|> defaults.vibe
    reactivity := config.reactivity <|> defaults.reactivity
    fidelity := config.fidelity <|> defaults.fidelity
    palette := config.palette <|> defaults.palette
    wireframe := config.wireframe <|> defaults.wireframe
    intensity := config.intensity <|> defaults.intensity
    speed := config.speed <|> defaults.speed
    contourLines := config.contourLines <|> defaults.contourLines
    thermalGuard := config.thermalGuard <|> defaults.thermalGuard
    angle := config.angle <|> defaults.angle
    grain := config.grain <|> defaults.grain
    glow := config.glow <|> defaults.glow
    chromatic := config.chromatic <|> defaults.chromatic
    vignette := config.vignette <|> defaults.vignette
    blur := config.blur <|> defaults.blur }

/-- The structured content of the `TypeError` thrown by `applyPreset`:
`[SMNTC] Preset "<presetName>" does not allow <field>: "<value>".` -/
structure PresetRejection where
  presetName : String
  field : String
  value : String
deriving DecidableEq

/-- One allow-list check of `applyPreset`, e.g.
`preset.allowedSurfaces && merged.surface && !preset.allowedSurfaces.includes(merged.surface)`.
JavaScript truthiness makes an empty-string selection skip the check. -/
def allowViolation (allowed : Option (List String)) (sel : Option String) : Option String :=
  match allowed, sel with
  | some l, some s => if s ≠ "" ∧ ¬ l.contains s then some s else none
  | _, _ => none

/-- `applyPreset(preset, config)`: merge defaults under the explicit config,
then enforce the populated allow-lists in source order, rejecting with the
preset name, the field and the offending value. -/
def applyPreset (preset : PresetDefinition) (config : SMNTCConfig) :
    Except PresetRejection SMNTCConfig :=
  let merged := mergeConfigs preset.defaults config
  match allowViolation preset.allowedSurfaces merged.surface with
  | some s => .error { presetName := preset.name, field := "surface", value := s }
  | none =>
  match allowViolation preset.allowedVibes merged.vibe with
  | some s => .error { presetName := preset.name, field := "vibe", value := s }
  | none =>
  match allowViolation preset.allowedReactivities merged.reactivity with
  | some s => .error { presetName := preset.name, field := "reactivity", value := s }
  | none =>
  match allowViolation preset.allowedFidelities merged.fidelity with
  | some s => .error { presetName := preset.name, field := "fidelity", value := s }
  | none =>
  match allowViolation preset.allowedPalettes merged.palette with
  | some s => .error { presetName := preset.name, field := "palette", value := s }
  | none => .ok merged

/-- Spec-side reading of one allow-list check: a populated (present)
allow-list together with a present merged selection not contained in it. -/
def specExcludes (allowed : Option (List String)) (sel : Option String) : Bool :=
  match allowed, sel with
  | some l, some s => !(l.contains s)
  | _, _ => false

/-- Spec-side rejection condition of the claim, verbatim: some populated
allow-list field excludes the merged selection for that field; an absent
merged field is never rejected. -/
def specRejects (p : PresetDefinition) (m : SMNTCConfig) : Bool :=
  specExcludes p.allowedSurfaces m.surface ||
  specExcludes p.allowedVibes m.vibe ||
  specExcludes p.allowedReactivities m.reactivity ||
  specExcludes p.allowedFidelities m.fidelity ||
  specExcludes p.allowedPalettes m.palette

/-- Amended spec-side rejection condition: as `specRejects`, except that an
empty-string merged selection is treated like an absent field (JavaScript
truthiness of `merged.<field>` in the source guard). -/
def specExcludesNonempty (allowed : Option (List String)) (sel : Option String) : Bool :=
  match allowed, sel with
  | some l, some s => (s != "") && !(l.contains s)
  | _, _ => false

/-- Amended rejection condition over the five categories. -/
def specRejectsNonempty (p : PresetDefinition) (m : SMNTCConfig) : Bool :=
  specExcludesNonempty p.allowedSurfaces m.surface ||
  specExcludesNonempty p.allowedVibes m.vibe ||
  specExcludesNonempty p.allowedReactivities m.reactivity ||
  specExcludesNonempty p.allowedFidelities m.fidelity ||
  specExcludesNonempty p.allowedPalettes m.palette

-- ===========================================================================
-- Orchestrator kernel (src/kernel/SMNTCKernel.ts)
-- ===========================================================================

/-- The double value of `Math.PI`, as its decimal digits. -/
def mathPI : ℚ := 3141592653589793/1000000000000000

/-- `Required<SMNTCConfig>`: the kernel's stored configuration, with every
field present (the constructor fills absent fields from `DEFAULTS`). -/
structure ConfigFull where
  surface : String
  vibe : String
  reactivity : String
  fidelity : String
  palette : String
  wireframe : Bool
  intensity : ℚ
  speed : ℚ
  contourLines : ℚ
  thermalGuard : Bool
  angle : ℚ
  grain : ℚ
  glow : ℚ
  chromatic : ℚ
  vignette : ℚ
  blur : ℚ
deriving DecidableEq, Inhabited

/-- A `Required<SMNTCConfig>` is passed to `resolveConstants` as a
configuration with every field present. -/
def toSparse (c : ConfigFull) : SMNTCConfig :=
  { surface := some c.surface
    vibe := some c.vibe
    reactivity := some c.reactivity
    fidelity := some c.fidelity
    palette := some c.palette
    wireframe := some c.wireframe
    intensity := some c.intensity
    speed := some c.speed
    contourLines := some c.contourLines
    thermalGuard := some c.thermalGuard
    angle := some c.angle
    grain := some c.grain
    glow := some c.glow
    chromatic := some c.chromatic
    vignette := some c.vignette
    blur := some c.blur }

/-- `Object.assign(this.config, config)`: every field present in the
partial configuration overwrites the stored one. -/
def assignConfig (config : ConfigFull) (p : SMNTCConfig) : ConfigFull :=
  { surface := p.surface.getD config.surface
    vibe := p.vibe.getD config.vibe
    reactivity := p.reactivity.getD config.reactivity
    fidelity := p.fidelity.getD config.fidelity
    palette := p.palette.getD config.palette
    wireframe := p.wireframe.getD config.wireframe
    intensity := p.intensity.getD config.intensity
    speed := p.speed.getD config.speed
    contourLines := p.contourLines.getD config.contourLines
    thermalGuard := p.thermalGuard.getD config.thermalGuard
    angle := p.angle.getD config.angle
    grain := p.grain.getD config.grain
    glow := p.glow.getD config.glow
    chromatic := p.chromatic.getD config.chromatic
    vignette := p.vignette.getD config.vignette
    blur := p.blur.getD config.blur }

/-- The shader uniform slots the kernel owns (`SMNTCUniforms`), numeric
values only (`IUniform.value`); colors and the pointer are triplets. -/
structure Uniforms where
  uTime : ℚ
  uSurfaceMode : ℚ
  uFrequency : ℚ
  uAmplitude : ℚ
  uNoiseScale : ℚ
  uNoiseSpeed : ℚ
  uIntensity : ℚ
  uSpeed : ℚ
  uContourLines : ℚ
  uReactivityMode : ℚ
  uReactivityStrength : ℚ
  uReactivityRadius : ℚ
  uPointer : ℚ × ℚ × ℚ
  uShockTime : ℚ
  uPrimaryColor : ℚ × ℚ × ℚ
  uAccentColor : ℚ × ℚ × ℚ
  uBackgroundColor : ℚ × ℚ × ℚ
  uWireframe : ℚ
  uWireframeWidth : ℚ
  uAngle : ℚ
  uGrain : ℚ
  uGlow : ℚ
  uChromatic : ℚ
  uVignette : ℚ
  uBlur : ℚ
deriving DecidableEq, Inhabited

/-- `createUniforms(constants)`. -/
def createUniforms (c : ShaderConstants) : Uniforms :=
  { uTime := 0
    uSurfaceMode := c.surfaceMode
    uFrequency := c.frequency
    uAmplitude := c.amplitude
    uNoiseScale := c.noiseScale
    uNoiseSpeed := c.noiseSpeed
    uIntensity := c.intensity
    uSpeed := c.speed
    uContourLines := c.contourLines
    uReactivityMode := c.reactivityMode
    uReactivityStrength := c.reactivityStrength
    uReactivityRadius := c.reactivityRadius
    uPointer := (0, 0, 0)
    uShockTime := 100
    uPrimaryColor := c.primaryColor
    uAccentColor := c.accentColor
    uBackgroundColor := c.backgroundColor
    uWireframe := if c.wireframe then 1 else 0
    uWireframeWidth := c.wireframeWidth
    uAngle := c.angle * mathPI / 180
    uGrain := c.grain
    uGlow := c.glow
    uChromatic := c.chromatic
    uVignette := c.vignette
    uBlur := c.blur }

/-- The kernel's cached spring references (`this._sp`), one spring per
animatable constant.  These alias the springs held in the `SpringBank`'s
map: the constructor creates all of them through `ensure` on the fresh
bank, and nothing else ever adds to or removes single entries from the
map, so the map contents stay exactly these 22 springs until `dispose()`
clears the map (the cached references survive that). -/
structure SpringRefs where
  frequency : Spring
  amplitude : Spring
  noiseScale : Spring
  noiseSpeed : Spring
  intensity : Spring
  speed : Spring
  contourLines : Spring
  reactivityStrength : Spring
  reactivityRadius : Spring
  wireframeWidth : Spring
  primaryR : Spring
  primaryG : Spring
  primaryB : Spring
  accentR : Spring
  accentG : Spring
  accentB : Spring
  angle : Spring
  grain : Spring
  glow : Spring
  chromatic : Spring
  vignette : Spring
  blur : Spring
deriving DecidableEq, Inhabited

/-- `initializeSpringTargets(constants)`: create every spring settled at
the resolved value (the angle spring works in radians). -/
def initializeSpringTargets (c : ShaderConstants) : SpringRefs :=
  { frequency := Spring.new c.frequency
    amplitude := Spring.new c.amplitude
    noiseScale := Spring.new c.noiseScale
    noiseSpeed := Spring.new c.noiseSpeed
    intensity := Spring.new c.intensity
    speed := Spring.new c.speed
    contourLines := Spring.new c.contourLines
    reactivityStrength := Spring.new c.reactivityStrength
    reactivityRadius := Spring.new c.reactivityRadius
    wireframeWidth := Spring.new c.wireframeWidth
    primaryR := Spring.new c.primaryColor.1
    primaryG := Spring.new c.primaryColor.2.1
    primaryB := Spring.new c.primaryColor.2.2
    accentR := Spring.new c.accentColor.1
    accentG := Spring.new c.accentColor.2.1
    accentB := Spring.new c.accentColor.2.2
    angle := Spring.new (c.angle * mathPI / 180)
    grain := Spring.new c.grain
    glow := Spring.new c.glow
    chromatic := Spring.new c.chromatic
    vignette := Spring.new c.vignette
    blur := Spring.new c.blur }

/-- `pushSpringTargets(constants)`: push every continuous resolved
constant as a new spring target. -/
def pushSpringTargets (c : ShaderConstants) (sp : SpringRefs) : SpringRefs :=
  { frequency := sp.frequency.setTarget c.frequency
    amplitude := sp.amplitude.setTarget c.amplitude
    noiseScale := sp.noiseScale.setTarget c.noiseScale
    noiseSpeed := sp.noiseSpeed.setTarget c.noiseSpeed
    intensity := sp.intensity.setTarget c.intensity
    speed := sp.speed.setTarget c.speed
    contourLines := sp.contourLines.setTarget c.contourLines
    reactivityStrength := sp.reactivityStrength.setTarget c.reactivityStrength
    reactivityRadius := sp.reactivityRadius.setTarget c.reactivityRadius
    wireframeWidth := sp.wireframeWidth.setTarget c.wireframeWidth
    primaryR := sp.primaryR.setTarget c.primaryColor.1
    primaryG := sp.primaryG.setTarget c.primaryColor.2.1
    primaryB := sp.primaryB.setTarget c.primaryColor.2.2
    accentR := sp.accentR.setTarget c.accentColor.1
    accentG := sp.accentG.setTarget c.accentColor.2.1
    accentB := sp.accentB.setTarget c.accentColor.2.2
    angle := sp.angle.setTarget (c.angle * mathPI / 180)
    grain := sp.grain.setTarget c.grain
    glow := sp.glow.setTarget c.glow
    chromatic := sp.chromatic.setTarget c.chromatic
    vignette := sp.vignette.setTarget c.vignette
    blur := sp.blur.setTarget c.blur }

/-- `SpringBank.step(dt)` over the kernel's springs. -/
def stepRefs (cfg : SpringConfig) (dt : ℚ) (sp : SpringRefs) : SpringRefs :=
  { frequency := Spring.step cfg sp.frequency dt
    amplitude := Spring.step cfg sp.amplitude dt
    noiseScale := Spring.step cfg sp.noiseScale dt
    noiseSpeed := Spring.step cfg sp.noiseSpeed dt
    intensity := Spring.step cfg sp.intensity dt
    speed := Spring.step cfg sp.speed dt
    contourLines := Spring.step cfg sp.contourLines dt
    reactivityStrength := Spring.step cfg sp.reactivityStrength dt
    reactivityRadius := Spring.step cfg sp.reactivityRadius dt
    wireframeWidth := Spring.step cfg sp.wireframeWidth dt
    primaryR := Spring.step cfg sp.primaryR dt
    primaryG := Spring.step cfg sp.primaryG dt
    primaryB := Spring.step cfg sp.primaryB dt
    accentR := Spring.step cfg sp.accentR dt
    accentG := Spring.step cfg sp.accentG dt
    accentB := Spring.step cfg sp.accentB dt
    angle := Spring.step cfg sp.angle dt
    grain := Spring.step cfg sp.grain dt
    glow := Spring.step cfg sp.glow dt
    chromatic := Spring.step cfg sp.chromatic dt
    vignette := Spring.step cfg sp.vignette dt
    blur := Spring.step cfg sp.blur dt }

/-- `writeSpringValuesToUniforms()`. -/
def writeSpringValues (sp : SpringRefs) (u : Uniforms) : Uniforms :=
  { u with
      uFrequency := sp.frequency.value
      uAmplitude := sp.amplitude.value
      uNoiseScale := sp.noiseScale.value
      uNoiseSpeed := sp.noiseSpeed.value
      uIntensity := sp.intensity.value
      uSpeed := sp.speed.value
      uContourLines := sp.contourLines.value
      uReactivityStrength := sp.reactivityStrength.value
      uReactivityRadius := sp.reactivityRadius.value
      uWireframeWidth := sp.wireframeWidth.value
      uPrimaryColor := (sp.primaryR.value, sp.primaryG.value, sp.primaryB.value)
      uAccentColor := (sp.accentR.value, sp.accentG.value, sp.accentB.value)
      uAngle := sp.angle.value
      uGrain := sp.grain.value
      uGlow := sp.glow.value
      uChromatic := sp.chromatic.value
      uVignette := sp.vignette.value
      uBlur := sp.blur.value }

/-- `SMNTCKernelOptions`, with the spring configuration already merged
over `DEFAULT_SPRING` (the camera and DOM element are external
collaborators). -/
structure SMNTCKernelOptions where
  config : SMNTCConfig := {}
  springConfig : SpringConfig := DEFAULT_SPRING
  disableAutoScale : Bool := false
deriving DecidableEq

/-- The orchestrator's state (`class SMNTCKernel`): stored configuration,
resolved constants, uniforms, cached springs, auto-scaler, and lifecycle
flags.  `bankCleared` records that `dispose()` emptied the `SpringBank`
map; the cached `sp` references survive it. -/
structure SMNTCKernel where
  config : ConfigFull
  constants : ShaderConstants
  uniforms : Uniforms
  springCfg : SpringConfig
  sp : SpringRefs
  bankCleared : Bool
  autoScaler : AutoScaler
  lastFrameTime : ℚ
  animating : Bool
  disposed : Bool
deriving DecidableEq, Inhabited

/-- The constructor: fill the configuration from `DEFAULTS`, resolve it
(a bad token in the options throws out of the constructor), create the
uniforms and springs, and set up the auto-scaler at the configured
fidelity. -/
def SMNTCKernel.new (reg : Registry) (options : SMNTCKernelOptions) :
    Except String SMNTCKernel :=
  let config : ConfigFull :=
    { surface := options.config.surface.getD DEFAULTS.surface
      vibe := options.config.vibe.getD DEFAULTS.vibe
      reactivity := options.config.reactivity.getD DEFAULTS.reactivity
      fidelity := options.config.fidelity.getD DEFAULTS.fidelity
      palette := options.config.palette.getD DEFAULTS.palette
      wireframe := options.config.wireframe.getD DEFAULTS.wireframe
      intensity := options.config.intensity.getD DEFAULTS.intensity
      speed := options.config.speed.getD DEFAULTS.speed
      contourLines := options.config.contourLines.getD DEFAULTS.contourLines
      thermalGuard := options.config.thermalGuard.getD DEFAULTS.thermalGuard
      angle := options.config.angle.getD DEFAULTS.angle
      grain := options.config.grain.getD DEFAULTS.grain
      glow := options.config.glow.getD DEFAULTS.glow
      chromatic := options.config.chromatic.getD DEFAULTS.chromatic
      vignette := options.config.vignette.getD DEFAULTS.vignette
      blur := options.config.blur.getD DEFAULTS.blur }
  match resolveConstants reg (toSparse config) with
  | .error e => .error e
  | .ok c =>
    .ok { config := config
          constants := c
          uniforms := createUniforms c
          springCfg := options.springConfig
          sp := initializeSpringTargets c
          bankCleared := false
          autoScaler := AutoScaler.new config.fidelity { enabled := some (!options.disableAutoScale) }
          lastFrameTime := 0
          animating := false
          disposed := false }

/-- `setVibe(vibe)`: the configuration field is assigned first; a failed
resolution then throws (`false`), leaving that assignment in place but
touching nothing else; on success every resolved constant is pushed as a
spring target. -/
def SMNTCKernel.setVibe (k : SMNTCKernel) (reg : Registry) (vibe : String) :
    SMNTCKernel × Bool :=
  let k := { k with config := { k.config with vibe := vibe } }
  match resolveConstants reg (toSparse k.config) with
  | .error _ => (k, false)
  | .ok c => ({ k with sp := pushSpringTargets c k.sp }, true)

/-- `setSurface(surface)`: assigns the field, resolves (throwing before
any write on failure), then writes the discrete mode uniform and pushes
spring targets. -/
def SMNTCKernel.setSurface (k : SMNTCKernel) (reg : Registry) (surface : String) :
    SMNTCKernel × Bool :=
  let k := { k with config := { k.config with surface := surface } }
  match resolveConstants reg (toSparse k.config) with
  | .error _ => (k, false)
  | .ok c =>
    ({ k with uniforms := { k.uniforms with uSurfaceMode := c.surfaceMode }
              sp := pushSpringTargets c k.sp }, true)

/-- `setPalette(palette)`: like `setVibe`, with spring-interpolated
colors. -/
def SMNTCKernel.setPalette (k : SMNTCKernel) (reg : Registry) (palette : String) :
    SMNTCKernel × Bool :=
  let k := { k with config := { k.config with palette := palette } }
  match resolveConstants reg (toSparse k.config) with
  | .error _ => (k, false)
  | .ok c => ({ k with sp := pushSpringTargets c k.sp }, true)

/-- `configure(config)`: `Object.assign` merges the provided fields into
the stored configuration, then one resolve-and-push pass; the discrete
uniforms are written only after a successful resolution. -/
def SMNTCKernel.configure (k : SMNTCKernel) (reg : Registry) (p : SMNTCConfig) :
    SMNTCKernel × Bool :=
  let k := { k with config := assignConfig k.config p }
  match resolveConstants reg (toSparse k.config) with
  | .error _ => (k, false)
  | .ok c =>
    ({ k with uniforms := { k.uniforms with
                  uSurfaceMode := c.surfaceMode
                  uReactivityMode := c.reactivityMode
                  uWireframe := if c.wireframe then 1 else 0 }
              sp := pushSpringTargets c k.sp }, true)

/-- The `onFidelityChange` callback installed by the constructor: store
the new fidelity, re-resolve, adopt the new segment count and wireframe
width, and spring only the wireframe width.  A failed resolution throws
out of `update` with the fidelity already stored. -/
def SMNTCKernel.onFidelityChange (k : SMNTCKernel) (reg : Registry) (f : String) :
    SMNTCKernel × Bool :=
  let k := { k with config := { k.config with fidelity := f } }
  match resolveConstants reg (toSparse k.config) with
  | .error _ => (k, false)
  | .ok c =>
    ({ k with constants := { k.constants with
                  segments := c.segments
                  wireframeWidth := c.wireframeWidth }
              sp := { k.sp with
                  wireframeWidth := k.sp.wireframeWidth.setTarget c.wireframeWidth } }, true)

/-- `update()`: a no-op once disposed; otherwise advance the springs,
write their values (and the elapsed time) to the uniforms, and report the
wall-clock frame duration to the auto-scaler, which may fire the fidelity
callback.  The clock and `performance.now()` readings are the `dt`,
`elapsed` and `now` parameters. -/
def SMNTCKernel.update (k : SMNTCKernel) (reg : Registry) (dt elapsed now : ℚ) :
    SMNTCKernel × Bool :=
  if k.disposed then (k, true)
  else
    let sp := stepRefs k.springCfg dt k.sp
    let uniforms := { writeSpringValues sp k.uniforms with uTime := elapsed }
    let k : SMNTCKernel := { k with sp := sp, uniforms := uniforms }
    if 0 < k.lastFrameTime then
      let r := k.autoScaler.reportFrame (now - k.lastFrameTime)
      let k : SMNTCKernel := { k with autoScaler := r.1 }
      match r.2 with
      | none => ({ k with lastFrameTime := now }, true)
      | some f =>
        let s := k.onFidelityChange reg f
        if s.2 then ({ s.1 with lastFrameTime := now }, true) else (s.1, false)
    else ({ k with lastFrameTime := now }, true)

/-- `dispose()`: sets the disposed flag, stops the loop, disposes the
auto-scaler and clears the spring bank's map (the cached spring
references survive). -/
def SMNTCKernel.dispose (k : SMNTCKernel) : SMNTCKernel :=
  { k with disposed := true
           animating := false
           autoScaler := k.autoScaler.dispose
           bankCleared := true }

/-- The kernel constructed over the base registry with all-default
options (never fails: the default tokens are registered). -/
def k0 : SMNTCKernel :=
  (SMNTCKernel.new baseRegistry {}).toOption.getD default

-- ===========================================================================
-- Theorems for claims C2, C9, C10
-- ===========================================================================

/-- Settledness invariant preserved by every public call: a settled spring
has zero velocity and sits exactly on its target. -/
lemma Spring.apply_settled_inv (cfg : SpringConfig) (s : Spring) (c : SpringCmd)
    (h : s.settled = true → s.velocity = 0 ∧ s.value = s.target) :
    (Spring.apply cfg s c).settled = true →
      (Spring.apply cfg s c).velocity = 0 ∧ (Spring.apply cfg s c).value = (Spring.apply cfg s c).target := by
  cases c with
  | setTarget t =>
    simp only [Spring.apply, Spring.setTarget]
    split
    · intro hc; simp at hc
    · exact h
  | snap v =>
    intro _; simp [Spring.apply, Spring.snap]
  | step dt =>
    simp only [Spring.apply, Spring.step]
    split
    · exact h
    · split
      · intro _; simp
      · intro hc; exact absurd hc ‹¬s.settled = true›

/-- C2 (counterexample): the claimed "iff" fails on a reachable state.  From
`new Spring(0)`, calling `setTarget(5)` and then `setTarget(0)` yields a
state with `velocity == 0` and `value == target` (both `0`) whose `settled`
flag is `false`. -/
theorem spring_settled_iff_counterexample :
    (Spring.run DEFAULT_SPRING 0 [SpringCmd.setTarget 5, SpringCmd.setTarget 0]).velocity = 0 ∧
    (Spring.run DEFAULT_SPRING 0 [SpringCmd.setTarget 5, SpringCmd.setTarget 0]).value =
      (Spring.run DEFAULT_SPRING 0 [SpringCmd.setTarget 5, SpringCmd.setTarget 0]).target ∧
    (Spring.run DEFAULT_SPRING 0 [SpringCmd.setTarget 5, SpringCmd.setTarget 0]).settled = false := by
  decide

/-- Folding the settledness invariant over a command list. -/
lemma Spring.foldl_settled_inv (cfg : SpringConfig) :
    ∀ (cmds : List SpringCmd) (s : Spring),
      (s.settled = true → s.velocity = 0 ∧ s.value = s.target) →
      ((cmds.foldl (Spring.apply cfg) s).settled = true →
        (cmds.foldl (Spring.apply cfg) s).velocity = 0 ∧
          (cmds.foldl (Spring.apply cfg) s).value = (cmds.foldl (Spring.apply cfg) s).target)
  | [], _, hs => hs
  | c :: cs, s, hs =>
    Spring.foldl_settled_inv cfg cs (Spring.apply cfg s c) (Spring.apply_settled_inv cfg s c hs)

/-- C2 (amended): in every reachable state of a spring (after any sequence of
construction, `setTarget`, `snap` and `step` calls), `settled = true` implies
`velocity == 0` and `value == target`.  The converse direction of the spec's
"iff" does not hold (see the counterexample): `setTarget` can leave a spring
unsettled while it momentarily has zero velocity and sits on the new target. -/
theorem spring_settled_implies_at_target (cfg : SpringConfig) (initial : ℚ)
    (cmds : List SpringCmd) (h : (Spring.run cfg initial cmds).settled = true) :
    (Spring.run cfg initial cmds).velocity = 0 ∧
      (Spring.run cfg initial cmds).value = (Spring.run cfg initial cmds).target :=
  Spring.foldl_settled_inv cfg cmds (Spring.new initial) (by intro _; simp [Spring.new]) h

/-- C2 (witness): the amended theorem applied to the concrete reachable state
`new Spring(0)` followed by `snap(3)`, which is settled. -/
theorem spring_settled_implies_at_target_witness :
    (Spring.run DEFAULT_SPRING 0 [SpringCmd.snap 3]).settled = true ∧
    ((Spring.run DEFAULT_SPRING 0 [SpringCmd.snap 3]).velocity = 0 ∧
      (Spring.run DEFAULT_SPRING 0 [SpringCmd.snap 3]).value =
        (Spring.run DEFAULT_SPRING 0 [SpringCmd.snap 3]).target) :=
  ⟨by decide, spring_settled_implies_at_target DEFAULT_SPRING 0 [SpringCmd.snap 3] (by decide)⟩

/-- C9: calling `setTarget` with the spring's current target changes nothing
at all — in particular it never flips `settled` from `true` to `false`, so
setting the same target twice does not restart a completed transition. -/
theorem spring_setTarget_same_target_noop (s : Spring) :
    s.setTarget s.target = s := by
  simp [Spring.setTarget]

/-- C10: `SpringBank.getValue` on a key for which no spring exists returns
`0` rather than failing, creates no spring and leaves the bank unchanged;
after `dispose()` this holds for every key. -/
theorem springBank_getValue_missing_key (b : SpringBank) (key : String)
    (h : b.springs.lookup key = none) :
    b.getValue key = (0, b) ∧ (b.dispose).getValue key = (0, b.dispose) := by
  constructor
  · simp [SpringBank.getValue, h]
  · simp [SpringBank.getValue, SpringBank.dispose]

/-- C10 (witness): a concrete bank holding a spring under `"frequency"` has
no spring under `"missing"`; `getValue` returns `0` and the bank survives
unchanged, also after `dispose()`. -/
theorem springBank_getValue_missing_key_witness :
    ({ springs := [("frequency", Spring.new 1)], springConfig := DEFAULT_SPRING } : SpringBank).springs.lookup "missing" = none ∧
    (({ springs := [("frequency", Spring.new 1)], springConfig := DEFAULT_SPRING } : SpringBank).getValue "missing" =
      (0, { springs := [("frequency", Spring.new 1)], springConfig := DEFAULT_SPRING }) ∧
     (({ springs := [("frequency", Spring.new 1)], springConfig := DEFAULT_SPRING } : SpringBank).dispose).getValue "missing" =
      (0, ({ springs := [("frequency", Spring.new 1)], springConfig := DEFAULT_SPRING } : SpringBank).dispose)) :=
  ⟨by decide, springBank_getValue_missing_key _ "missing" (by decide)⟩

-- ===========================================================================
-- Theorems for claims C3, C5
-- ===========================================================================

/-- The saturating clamp written as the spec's case split: below range gives
the lower bound, above range the upper bound, inside the range the value
itself. -/
lemma clamp_eq_ite (v lo hi : ℚ) (h : lo ≤ hi) :
    clamp v lo hi = if v < lo then lo else if v > hi then hi else v := by
  unfold clamp
  split_ifs with h1 h2
  · rw [min_eq_right (le_of_lt (lt_of_lt_of_le h1 h)), max_eq_left (le_of_lt h1)]
  · rw [min_eq_left (le_of_lt h2), max_eq_right h]
  · rw [min_eq_right (not_lt.mp h2), max_eq_right (not_lt.mp h1)]

/-- C3: for every continuous knob and every rational value `v`, the resolved
field of a configuration that sets only that knob (all tokens defaulted,
resolved against the base registry) is the nearer bound when `v` lies
outside the knob's documented range, and `v` itself when inside. -/
theorem resolve_clamps_numeric_knobs (v : ℚ) :
    (resolveConstants baseRegistry { intensity := some v }).map ShaderConstants.intensity =
      .ok (if v < 0 then 0 else if v > 2 then 2 else v) ∧
    (resolveConstants baseRegistry { speed := some v }).map ShaderConstants.speed =
      .ok (if v < 0 then 0 else if v > 5 then 5 else v) ∧
    (resolveConstants baseRegistry { contourLines := some v }).map ShaderConstants.contourLines =
      .ok (if v < 4 then 4 else if v > 64 then 64 else v) ∧
    (resolveConstants baseRegistry { angle := some v }).map ShaderConstants.angle =
      .ok (if v < 0 then 0 else if v > 360 then 360 else v) ∧
    (resolveConstants baseRegistry { grain := some v }).map ShaderConstants.grain =
      .ok (if v < 0 then 0 else if v > 1 then 1 else v) ∧
    (resolveConstants baseRegistry { chromatic := some v }).map ShaderConstants.chromatic =
      .ok (if v < 0 then 0 else if v > 1 then 1 else v) ∧
    (resolveConstants baseRegistry { vignette := some v }).map ShaderConstants.vignette =
      .ok (if v < 0 then 0 else if v > 1 then 1 else v) ∧
    (resolveConstants baseRegistry { blur := some v }).map ShaderConstants.blur =
      .ok (if v < 0 then 0 else if v > 1 then 1 else v) ∧
    (resolveConstants baseRegistry { glow := some v }).map ShaderConstants.glow =
      .ok (if v < 0 then 0 else if v > 2 then 2 else v) := by
  refine ⟨?_, ?_, ?_, ?_, ?_, ?_, ?_, ?_, ?_⟩ <;>
    · show Except.ok (clamp v _ _) = _
      rw [clamp_eq_ite v _ _ (by norm_num)]

/-- C5: for every registry state reachable by runtime registrations on top
of the base tables, and every configuration whose five token fields resolve,
resolution mutates no registry state, and a second call on the registry
returned by the first yields a structurally identical successful output. -/
theorem resolve_is_pure (ops : List RegOp) (c : SMNTCConfig)
    (h : (resolveConstantsSt (applyRegOps baseRegistry ops) c).1.isOk = true) :
    (resolveConstantsSt (applyRegOps baseRegistry ops) c).2 = applyRegOps baseRegistry ops ∧
    (resolveConstantsSt ((resolveConstantsSt (applyRegOps baseRegistry ops) c).2) c).1 =
      (resolveConstantsSt (applyRegOps baseRegistry ops) c).1 ∧
    ∃ cst, (resolveConstantsSt (applyRegOps baseRegistry ops) c).1 = .ok cst := by
  refine ⟨rfl, rfl, ?_⟩
  cases hr : (resolveConstantsSt (applyRegOps baseRegistry ops) c).1 with
  | ok cst => exact ⟨cst, rfl⟩
  | error e => rw [hr] at h; simp [Except.isOk, Except.toBool] at h

/-- C5 (witness): a custom vibe registered after startup resolves, twice,
with no registry mutation. -/
theorem resolve_is_pure_witness :
    (resolveConstantsSt (applyRegOps baseRegistry [RegOp.vibe "zen" { frequency := 1, amplitude := 1, damping := 1, noiseSpeed := 1 }]) { vibe := some "zen" }).1.isOk = true ∧
    (resolveConstantsSt (applyRegOps baseRegistry [RegOp.vibe "zen" { frequency := 1, amplitude := 1, damping := 1, noiseSpeed := 1 }]) { vibe := some "zen" }).2 =
      applyRegOps baseRegistry [RegOp.vibe "zen" { frequency := 1, amplitude := 1, damping := 1, noiseSpeed := 1 }] :=
  ⟨by decide,
   (resolve_is_pure [RegOp.vibe "zen" { frequency := 1, amplitude := 1, damping := 1, noiseSpeed := 1 }]
     { vibe := some "zen" } (by decide)).1⟩

-- ===========================================================================
-- Theorems for claim C8
-- ===========================================================================

/-- An allow-list check passes exactly when the amended exclusion condition
is false. -/
lemma allowViolation_eq_none (a : Option (List String)) (sel : Option String) :
    allowViolation a sel = none ↔ specExcludesNonempty a sel = false := by
  cases a with
  | none => cases sel <;> simp [allowViolation, specExcludesNonempty]
  | some l =>
    cases sel with
    | none => simp [allowViolation, specExcludesNonempty]
    | some s =>
      by_cases he : s = "" <;> by_cases hc : l.contains s = true <;>
        simp [allowViolation, specExcludesNonempty, he, hc]

/-- An allow-list check fails exactly on a present, excluded, non-empty
selection, and the reported value is that selection. -/
lemma allowViolation_eq_some (a : Option (List String)) (sel : Option String) (v : String) :
    allowViolation a sel = some v ↔ sel = some v ∧ specExcludesNonempty a sel = true := by
  cases a with
  | none => cases sel <;> simp [allowViolation, specExcludesNonempty]
  | some l =>
    cases sel with
    | none => simp [allowViolation, specExcludesNonempty]
    | some s =>
      by_cases he : s = "" <;> by_cases hc : l.contains s = true <;>
        simp [allowViolation, specExcludesNonempty, he, hc] <;> tauto

/-- C8 (counterexample): the claim's "fails exactly when some populated
allow-list field excludes the merged selection" is refuted by an
empty-string selection.  With allow-list `["topographic"]` and configuration
`{surface: ""}`, the merged selection `""` is excluded by the allow-list,
yet `applyPreset` succeeds: the JavaScript guard `merged.surface && …`
treats the falsy empty string as absent. -/
theorem applyPreset_exactly_when_counterexample :
    specRejects { name := "locked", allowedSurfaces := some ["topographic"] }
        (mergeConfigs ({ name := "locked", allowedSurfaces := some ["topographic"] } : PresetDefinition).defaults { surface := some "" }) = true ∧
    applyPreset { name := "locked", allowedSurfaces := some ["topographic"] } { surface := some "" } =
      .ok (mergeConfigs ({ name := "locked", allowedSurfaces := some ["topographic"] } : PresetDefinition).defaults { surface := some "" }) := by
  decide

/-- C8 (amended): `applyPreset(p, c)` computes the merge
`{...p.defaults, ...c}` with explicit fields of `c` winning; it returns that
merge exactly when no populated allow-list field excludes a present,
non-empty merged selection; otherwise it fails with an error naming the
preset and the offending merged selection.  (The input configuration is a
value, never mutated.) -/
theorem applyPreset_merge_and_allowlists (p : PresetDefinition) (c : SMNTCConfig) :
    (applyPreset p c = .ok (mergeConfigs p.defaults c) ↔
      specRejectsNonempty p (mergeConfigs p.defaults c) = false) ∧
    (specRejectsNonempty p (mergeConfigs p.defaults c) = true →
      ∃ e, applyPreset p c = .error e ∧ e.presetName = p.name ∧
        ((e.field = "surface" ∧ (mergeConfigs p.defaults c).surface = some e.value) ∨
         (e.field = "vibe" ∧ (mergeConfigs p.defaults c).vibe = some e.value) ∨
         (e.field = "reactivity" ∧ (mergeConfigs p.defaults c).reactivity = some e.value) ∨
         (e.field = "fidelity" ∧ (mergeConfigs p.defaults c).fidelity = some e.value) ∨
         (e.field = "palette" ∧ (mergeConfigs p.defaults c).palette = some e.value))) := by
  simp only [applyPreset]
  cases h1 : allowViolation p.allowedSurfaces (mergeConfigs p.defaults c).surface with
  | some s =>
    have hs := (allowViolation_eq_some _ _ _).mp h1
    constructor
    · simp [specRejectsNonempty, hs.2]
    · intro _
      exact ⟨_, rfl, rfl, Or.inl ⟨rfl, hs.1⟩⟩
  | none =>
    have hs := (allowViolation_eq_none _ _).mp h1
    cases h2 : allowViolation p.allowedVibes (mergeConfigs p.defaults c).vibe with
    | some s =>
      have hv := (allowViolation_eq_some _ _ _).mp h2
      constructor
      · simp [specRejectsNonempty, hv.2]
      · intro _
        exact ⟨_, rfl, rfl, Or.inr (Or.inl ⟨rfl, hv.1⟩)⟩
    | none =>
      have hv := (allowViolation_eq_none _ _).mp h2
      cases h3 : allowViolation p.allowedReactivities (mergeConfigs p.defaults c).reactivity with
      | some s =>
        have hr := (allowViolation_eq_some _ _ _).mp h3
        constructor
        · simp [specRejectsNonempty, hr.2]
        · intro _
          exact ⟨_, rfl, rfl, Or.inr (Or.inr (Or.inl ⟨rfl, hr.1⟩))⟩
      | none =>
        have hr := (allowViolation_eq_none _ _).mp h3
        cases h4 : allowViolation p.allowedFidelities (mergeConfigs p.defaults c).fidelity with
        | some s =>
          have hf := (allowViolation_eq_some _ _ _).mp h4
          constructor
          · simp [specRejectsNonempty, hf.2]
          · intro _
            exact ⟨_, rfl, rfl, Or.inr (Or.inr (Or.inr (Or.inl ⟨rfl, hf.1⟩)))⟩
        | none =>
          have hf := (allowViolation_eq_none _ _).mp h4
          cases h5 : allowViolation p.allowedPalettes (mergeConfigs p.defaults c).palette with
          | some s =>
            have hp := (allowViolation_eq_some _ _ _).mp h5
            constructor
            · simp [specRejectsNonempty, hp.2]
            · intro _
              exact ⟨_, rfl, rfl, Or.inr (Or.inr (Or.inr (Or.inr ⟨rfl, hp.1⟩)))⟩
          | none =>
            have hp := (allowViolation_eq_none _ _).mp h5
            constructor
            · simp [specRejectsNonempty, hs, hv, hr, hf, hp]
            · intro hcontra
              rw [specRejectsNonempty, hs, hv, hr, hf, hp] at hcontra
              simp at hcontra

/-- C8 (witness): the amended theorem applied to a preset with
`allowedPalettes: ["arctic"]` and the configuration `{palette: "neon"}`:
the application is rejected with an error naming the preset and the
offending selection. -/
theorem applyPreset_merge_and_allowlists_witness :
    ∃ e, applyPreset { name := "p", allowedPalettes := some ["arctic"] } { palette := some "neon" } = .error e ∧
      e.presetName = ({ name := "p", allowedPalettes := some ["arctic"] } : PresetDefinition).name ∧
      ((e.field = "surface" ∧ (mergeConfigs ({ name := "p", allowedPalettes := some ["arctic"] } : PresetDefinition).defaults { palette := some "neon" }).surface = some e.value) ∨
       (e.field = "vibe" ∧ (mergeConfigs ({ name := "p", allowedPalettes := some ["arctic"] } : PresetDefinition).defaults { palette := some "neon" }).vibe = some e.value) ∨
       (e.field = "reactivity" ∧ (mergeConfigs ({ name := "p", allowedPalettes := some ["arctic"] } : PresetDefinition).defaults { palette := some "neon" }).reactivity = some e.value) ∨
       (e.field = "fidelity" ∧ (mergeConfigs ({ name := "p", allowedPalettes := some ["arctic"] } : PresetDefinition).defaults { palette := some "neon" }).fidelity = some e.value) ∨
       (e.field = "palette" ∧ (mergeConfigs ({ name := "p", allowedPalettes := some ["arctic"] } : PresetDefinition).defaults { palette := some "neon" }).palette = some e.value)) :=
  (applyPreset_merge_and_allowlists { name := "p", allowedPalettes := some ["arctic"] } { palette := some "neon" }).2 (by decide)

-- ===========================================================================
-- Theorems for claim C7
-- ===========================================================================

/-- One `reportFrame` call moves the ladder index by at most one step, and
keeps it inside the ladder. -/
lemma AutoScaler.reportFrame_index_step (s : AutoScaler) (d : ℚ) :
    ((s.reportFrame d).1.currentIndex = s.currentIndex ∨
     (s.reportFrame d).1.currentIndex + 1 = s.currentIndex ∨
     (s.reportFrame d).1.currentIndex = s.currentIndex + 1) ∧
    (s.currentIndex < FIDELITY_LADDER.length →
      (s.reportFrame d).1.currentIndex < FIDELITY_LADDER.length) := by
  unfold AutoScaler.reportFrame AutoScaler.resetBuffer
  simp only [FIDELITY_LADDER]
  split_ifs with h1 h2 h3 h4 h5 h6 <;> simp_all <;> omega

/-- `setEnabled` never touches the ladder index. -/
lemma AutoScaler.setEnabled_index (s : AutoScaler) (b : Bool) :
    (s.setEnabled b).currentIndex = s.currentIndex := by
  unfold AutoScaler.setEnabled AutoScaler.resetBuffer
  split_ifs <;> rfl

/-- `dispose` never touches the ladder index. -/
lemma AutoScaler.dispose_index (s : AutoScaler) :
    s.dispose.currentIndex = s.currentIndex := rfl

/-- The constructor produces a valid ladder index for every initial
fidelity name (unknown names fall back to index 1). -/
lemma AutoScaler.new_index_lt (f : String) (opts : AutoScalerOptions) :
    (AutoScaler.new f opts).currentIndex < FIDELITY_LADDER.length := by
  show (if FIDELITY_LADDER.indexOf f = FIDELITY_LADDER.length then 1
        else FIDELITY_LADDER.indexOf f) < FIDELITY_LADDER.length
  by_cases h : FIDELITY_LADDER.indexOf f = FIDELITY_LADDER.length
  · rw [if_pos h]; norm_num [FIDELITY_LADDER]
  · rw [if_neg h]; exact lt_of_le_of_ne (List.indexOf_le_length) h

/-- Every public call preserves validity of the ladder index. -/
lemma AutoScaler.applyCmd_index_lt (s : AutoScaler) (c : ScalerCmd)
    (h : s.currentIndex < FIDELITY_LADDER.length) :
    (s.applyCmd c).currentIndex < FIDELITY_LADDER.length := by
  cases c with
  | report d => exact (AutoScaler.reportFrame_index_step s d).2 h
  | setEnabled b => rw [AutoScaler.applyCmd, AutoScaler.setEnabled_index]; exact h
  | dispose => rw [AutoScaler.applyCmd, AutoScaler.dispose_index]; exact h

/-- Folding index validity over a command list. -/
lemma AutoScaler.foldl_index_lt :
    ∀ (cmds : List ScalerCmd) (s : AutoScaler),
      s.currentIndex < FIDELITY_LADDER.length →
      (cmds.foldl AutoScaler.applyCmd s).currentIndex < FIDELITY_LADDER.length
  | [], _, h => h
  | c :: cs, s, h =>
    AutoScaler.foldl_index_lt cs (s.applyCmd c) (AutoScaler.applyCmd_index_lt s c h)

/-- C7: in every reachable state of an `AutoScaler` (construction with any
initial fidelity name and options, then any sequence of `reportFrame`,
`setEnabled` and `dispose` calls), `currentIndex` is a valid position in
the fixed ladder `["low", "medium", "high", "ultra"]`, and every further
public call moves the index by at most one step and keeps it inside the
ladder — so no transition ever skips a tier or leaves the ladder. -/
theorem autoScaler_index_valid_and_one_step (f : String) (opts : AutoScalerOptions)
    (cmds : List ScalerCmd) :
    (AutoScaler.run f opts cmds).currentIndex < FIDELITY_LADDER.length ∧
    ∀ c : ScalerCmd,
      ((AutoScaler.run f opts cmds).applyCmd c).currentIndex < FIDELITY_LADDER.length ∧
      (((AutoScaler.run f opts cmds).applyCmd c).currentIndex = (AutoScaler.run f opts cmds).currentIndex ∨
       ((AutoScaler.run f opts cmds).applyCmd c).currentIndex + 1 = (AutoScaler.run f opts cmds).currentIndex ∨
       ((AutoScaler.run f opts cmds).applyCmd c).currentIndex = (AutoScaler.run f opts cmds).currentIndex + 1) := by
  have hrun : (AutoScaler.run f opts cmds).currentIndex < FIDELITY_LADDER.length :=
    AutoScaler.foldl_index_lt cmds (AutoScaler.new f opts) (AutoScaler.new_index_lt f opts)
  refine ⟨hrun, fun c => ⟨AutoScaler.applyCmd_index_lt _ c hrun, ?_⟩⟩
  cases c with
  | report d => exact (AutoScaler.reportFrame_index_step _ d).1
  | setEnabled b => exact Or.inl (AutoScaler.setEnabled_index _ b)
  | dispose => exact Or.inl (AutoScaler.dispose_index _)

-- ===========================================================================
-- Theorems for claim C6
-- ===========================================================================

/-- Overwriting a slot of a constant buffer with the same value changes
nothing. -/
lemma list_set_replicate_self (d : ℚ) :
    ∀ (n i : ℕ), (List.replicate n d).set i d = List.replicate n d
  | 0, _ => rfl
  | _ + 1, 0 => by simp [List.replicate_succ]
  | n + 1, i + 1 => by
    simp only [List.replicate_succ, List.set]
    rw [list_set_replicate_self d n i]

/-- Reading inside a constant buffer yields the constant. -/
lemma list_getD_replicate (d : ℚ) :
    ∀ (n i : ℕ), i < n → (List.replicate n d).getD i 0 = d
  | 0, i, h => absurd h (Nat.not_lt_zero i)
  | _ + 1, 0, _ => by simp [List.replicate_succ]
  | n + 1, i + 1, h => by
    simp only [List.replicate_succ, List.getD_cons_succ]
    exact list_getD_replicate d n i (by omega)

/-- Writing the constant into the first empty slot of a partially filled
buffer extends the filled prefix by one. -/
lemma list_fill_set (d : ℚ) :
    ∀ (k m : ℕ),
      (List.replicate k d ++ List.replicate (m + 1) 0).set k d =
        List.replicate (k + 1) d ++ List.replicate m 0
  | 0, m => by simp [List.replicate_succ]
  | k + 1, m => by
    calc (List.replicate (k + 1) d ++ List.replicate (m + 1) 0).set (k + 1) d
        = d :: ((List.replicate k d ++ List.replicate (m + 1) 0).set k d) := rfl
      _ = d :: (List.replicate (k + 1) d ++ List.replicate m 0) := by
            rw [list_fill_set d k m]
      _ = List.replicate (k + 1 + 1) d ++ List.replicate m 0 := rfl

/-- Feeding a concatenation feeds the pieces in order and concatenates the
notifications. -/
lemma AutoScaler.feedList_append (l1 : List ℚ) :
    ∀ (s : AutoScaler) (l2 : List ℚ),
      s.feedList (l1 ++ l2) =
        (((s.feedList l1).1.feedList l2).1,
         (s.feedList l1).2 ++ ((s.feedList l1).1.feedList l2).2) := by
  induction l1 with
  | nil => intro s l2; simp [AutoScaler.feedList]
  | cons d ds ih =>
    intro s l2
    simp only [List.cons_append, AutoScaler.feedList, List.append_eq]
    rw [ih]
    simp [List.append_assoc]


/-- Reading inside a constant buffer through the `getElem?` normal form. -/
lemma list_getDq_replicate (d : ℚ) (n i : ℕ) (h : i < n) :
    (List.replicate n d)[i]?.getD 0 = d := by
  rw [List.getElem?_replicate, if_pos h]
  rfl

set_option maxHeartbeats 1600000 in
/-- One neutral constant report advances `constState` by one step and emits
no notification: a duration that is neither strictly above 115% nor
strictly below 75% of the default 16.6 ms target keeps both streaks at
zero. -/
lemma AutoScaler.reportFrame_constState (d : ℚ)
    (h1 : ¬ ((83 : ℚ)/5 * (23/20) < d)) (h2 : ¬ (d < (83 : ℚ)/5 * (3/4))) (n : ℕ) :
    (constState d n).reportFrame d = (constState d (n + 1), none) := by
  rcases lt_trichotomy n 29 with hn | hn | hn
  · have hmin : min n 30 = n := by omega
    have hmin1 : min (n + 1) 30 = n + 1 := by omega
    have hmod : n % 30 = n := by omega
    have hmod1 : (n + 1) % 30 = n + 1 := by omega
    simp only [AutoScaler.reportFrame, constState, hmin, hmod]
    split_ifs with a1 a2 a3 a4
    all_goals try (exact Bool.noConfusion a1)
    all_goals try (exfalso; assumption)
    all_goals try (exfalso; omega)
    rw [hmin1]
    rw [show 30 - n = (29 - n) + 1 from by omega, list_fill_set d n (29 - n),
        show 29 - n = 30 - (n + 1) from by omega]
    simp only [Prod.mk.injEq, AutoScaler.mk.injEq, and_true, true_and, eq_self_iff_true]
    push_cast
    ring
  · subst hn
    simp only [AutoScaler.reportFrame, constState]
    norm_num
    rw [show ((29 : ℚ) * d + d) / (30 : ℚ) = d from by ring]
    rw [if_neg (show ¬((1909 : ℚ)/100 < d) from fun hc => h1 (by linarith)),
        if_neg (show ¬(d < (249 : ℚ)/20) from fun hc => h2 (by linarith))]
    simp only [Prod.mk.injEq, AutoScaler.mk.injEq]
    norm_num [← List.replicate_succ']
    ring
  · have hn30 : 30 ≤ n := by omega
    have hmin : min n 30 = 30 := by omega
    have hmin1 : min (n + 1) 30 = 30 := by omega
    have hlt : n % 30 < 30 := by omega
    simp only [AutoScaler.reportFrame, constState, hmin, hmin1]
    norm_num
    rw [list_getDq_replicate d 30 (n % 30) hlt]
    rw [show ((30 : ℚ) * d - d + d) / (30 : ℚ) = d from by ring]
    rw [if_neg (show ¬((1909 : ℚ)/100 < d) from fun hc => h1 (by linarith)),
        if_neg (show ¬(d < (249 : ℚ)/20) from fun hc => h2 (by linarith))]
    simp only [Prod.mk.injEq, AutoScaler.mk.injEq]
    norm_num

/-- The initial state is the zero point of the constant-feed trajectory. -/
lemma constState_zero (d : ℚ) : constState d 0 = defaultScaler := by
  have hidx : FIDELITY_LADDER.indexOf "medium" = 1 := by decide
  simp [constState, defaultScaler, AutoScaler.new, hidx]

/-- Feeding `n` neutral constant durations produces `constState` with no
notification ever emitted. -/
lemma AutoScaler.feedN_const_neutral (d : ℚ)
    (h1 : ¬ ((83 : ℚ)/5 * (23/20) < d)) (h2 : ¬ (d < (83 : ℚ)/5 * (3/4))) :
    ∀ n, defaultScaler.feedN d n = (constState d n, []) := by
  intro n
  induction n with
  | zero =>
    rw [AutoScaler.feedN, List.replicate_zero, AutoScaler.feedList, constState_zero]
  | succ n ih =>
    rw [AutoScaler.feedN] at ih
    rw [AutoScaler.feedN, List.replicate_succ', AutoScaler.feedList_append, ih]
    simp [AutoScaler.feedList, AutoScaler.reportFrame_constState d h1 h2 n]

lemma AutoScaler.feedN_events_prefix (s : AutoScaler) (d : ℚ) (n m : ℕ) (h : n ≤ m)
    (he : (s.feedN d m).2 = []) : (s.feedN d n).2 = [] := by
  have hrep : List.replicate m d = List.replicate n d ++ List.replicate (m - n) d := by
    rw [← List.replicate_add]
    congr 1
    omega
  rw [AutoScaler.feedN, hrep, AutoScaler.feedList_append] at he
  simp only [List.append_eq_nil] at he
  rw [AutoScaler.feedN]
  exact he.1


set_option maxHeartbeats 1600000 in
/-- One slow constant report (duration strictly above 115% of target)
advances `slowState` by one step without a notification, as long as the
downgrade threshold is not yet reached (`n ≤ 47`). -/
lemma AutoScaler.reportFrame_slowState (d : ℚ) (hd : (83 : ℚ)/5 * (23/20) < d)
    (n : ℕ) (hn : n ≤ 47) :
    (slowState d n).reportFrame d = (slowState d (n + 1), none) := by
  rcases lt_trichotomy n 29 with hnn | hnn | hnn
  · have hmin : min n 30 = n := by omega
    have hmin1 : min (n + 1) 30 = n + 1 := by omega
    have hmod : n % 30 = n := by omega
    have hmod1 : (n + 1) % 30 = n + 1 := by omega
    have hbad : n - 29 = 0 := by omega
    have hbad1 : (n + 1) - 29 = 0 := by omega
    simp only [slowState, AutoScaler.reportFrame, hmin, hmod, hbad]
    split_ifs with a1 a2 a3 a4
    all_goals try (exact Bool.noConfusion a1)
    all_goals try (exfalso; assumption)
    all_goals try (exfalso; omega)
    rw [hmin1, hbad1]
    rw [show 30 - n = (29 - n) + 1 from by omega, list_fill_set d n (29 - n),
        show 29 - n = 30 - (n + 1) from by omega]
    simp only [Prod.mk.injEq, AutoScaler.mk.injEq, and_true, true_and, eq_self_iff_true]
    push_cast
    ring
  · subst hnn
    simp only [slowState, AutoScaler.reportFrame]
    norm_num
    rw [show ((29 : ℚ) * d + d) / (30 : ℚ) = d from by ring]
    rw [if_pos (show (1909 : ℚ)/100 < d from by linarith)]
    norm_num [← List.replicate_succ']
    ring
  · have hn30 : 30 ≤ n := by omega
    have hmin : min n 30 = 30 := by omega
    have hmin1 : min (n + 1) 30 = 30 := by omega
    have hlt : n % 30 < 30 := by omega
    have hbad1 : n - 29 + 1 = (n + 1) - 29 := by omega
    simp only [slowState, AutoScaler.reportFrame, hmin, hmin1]
    norm_num
    rw [list_getDq_replicate d 30 (n % 30) hlt]
    rw [show ((30 : ℚ) * d - d + d) / (30 : ℚ) = d from by ring]
    rw [if_pos (show (1909 : ℚ)/100 < d from by linarith)]
    rw [if_neg (show ¬(20 ≤ n - 29 + 1) from by omega)]
    simp only [Prod.mk.injEq, AutoScaler.mk.injEq]
    norm_num [hbad1]

set_option maxHeartbeats 1600000 in
/-- The 49th slow report reaches the downgrade threshold: exactly one
notification (`"low"`), a single one-step downgrade from `medium`, and the
streak and buffer are reset. -/
lemma AutoScaler.reportFrame_slowState_48 (d : ℚ) (hd : (83 : ℚ)/5 * (23/20) < d) :
    (slowState d 48).reportFrame d = (downgradedState, some "low") := by
  simp only [slowState, AutoScaler.reportFrame]
  norm_num
  rw [if_pos (show (1909 : ℚ)/100 < d from by linarith)]
  simp only [AutoScaler.resetBuffer, AutoScaler.currentFidelity, downgradedState,
    Prod.mk.injEq, AutoScaler.mk.injEq]
  norm_num [FIDELITY_LADDER]

/-- Feeding `n ≤ 48` slow constant reports accumulates streak only, with no
notification. -/
lemma AutoScaler.feedN_slow (d : ℚ) (hd : (83 : ℚ)/5 * (23/20) < d) :
    ∀ n, n ≤ 48 → defaultScaler.feedN d n = (slowState d n, []) := by
  intro n
  induction n with
  | zero =>
    intro _
    rw [AutoScaler.feedN, List.replicate_zero, AutoScaler.feedList]
    rw [show slowState d 0 = defaultScaler from by
      have hidx : FIDELITY_LADDER.indexOf "medium" = 1 := by decide
      simp [slowState, defaultScaler, AutoScaler.new, hidx]]
  | succ n ih =>
    intro hn
    rw [AutoScaler.feedN] at ih
    rw [AutoScaler.feedN, List.replicate_succ', AutoScaler.feedList_append,
        ih (by omega)]
    simp [AutoScaler.feedList, AutoScaler.reportFrame_slowState d hd n (by omega)]

/-- The 49th slow report downgrades exactly once. -/
lemma AutoScaler.feedN_slow_49 (d : ℚ) (hd : (83 : ℚ)/5 * (23/20) < d) :
    defaultScaler.feedN d 49 = (downgradedState, ["low"]) := by
  rw [AutoScaler.feedN, show (49 : ℕ) = 48 + 1 from rfl, List.replicate_succ',
      AutoScaler.feedList_append]
  rw [show defaultScaler.feedList (List.replicate 48 d) = (slowState d 48, []) from
    AutoScaler.feedN_slow d hd 48 (by omega)]
  simp [AutoScaler.feedList, AutoScaler.reportFrame_slowState_48 d hd]

/-- C6 (counterexample): feeding constant frame durations exactly 15% above
the default 16.6 ms target (i.e. 19.09 ms) never triggers a downgrade: the
classification requires `avg` strictly above `target * 1.15`, so the
boundary duration is neutral.  After 49 reports — enough to fill the
30-sample window and accumulate the 20-report streak, had the samples
classified as slow — and even after 490, no notification has been emitted
and the tier is still `medium` (a lower tier being available). -/
theorem autoScaler_boundary_never_downgrades :
    (defaultScaler.feedN (1909/100) 49).2 = [] ∧
    (defaultScaler.feedN (1909/100) 49).1.currentIndex = 1 ∧
    (defaultScaler.feedN (1909/100) 490).2 = [] ∧
    (defaultScaler.feedN (1909/100) 490).1.currentIndex = 1 := by
  rw [AutoScaler.feedN_const_neutral (1909/100) (by norm_num) (by norm_num) 49,
      AutoScaler.feedN_const_neutral (1909/100) (by norm_num) (by norm_num) 490]
  exact ⟨rfl, rfl, rfl, rfl⟩

/-- C6 (amended): for an `AutoScaler` with default options, feeding an
unbounded constant stream of durations exactly equal to the target frame
time never invokes the fidelity-change callback; feeding constant durations
strictly more than 15% above target (rather than exactly 15% above) for
fewer reports than needed to reach the downgrade threshold triggers no
downgrade, and the threshold-reaching 49th report triggers exactly one
downgrade to `low`, after which the slow streak and the sample buffer are
reset. -/
theorem autoScaler_hysteresis (d : ℚ) (hd : (83 : ℚ)/5 * (23/20) < d) (n : ℕ) :
    (defaultScaler.feedN (83/5) n).2 = [] ∧
    (n ≤ 48 → (defaultScaler.feedN d n).2 = []) ∧
    defaultScaler.feedN d 49 = (downgradedState, ["low"]) ∧
    downgradedState.consecutiveBad = 0 ∧
    downgradedState.frameCount = 0 ∧
    downgradedState.runningSum = 0 ∧
    downgradedState.frameTimes = List.replicate 30 0 ∧
    downgradedState.currentIndex = 0 := by
  refine ⟨?_, ?_, AutoScaler.feedN_slow_49 d hd, rfl, rfl, rfl, rfl, rfl⟩
  · rw [AutoScaler.feedN_const_neutral (83/5) (by norm_num) (by norm_num) n]
  · intro hn
    rw [AutoScaler.feedN_slow d hd n hn]

/-- C6 (witness): the amended theorem applied at duration 20 ms (strictly
above 115% of 16.6 ms) and 10 reports (below the threshold count). -/
theorem autoScaler_hysteresis_witness :
    (defaultScaler.feedN 20 10).2 = [] :=
  (autoScaler_hysteresis 20 (by norm_num) 10).2.1 (by norm_num)


-- ===========================================================================
-- Theorems for claims C1, C4
-- ===========================================================================

/-- `setTarget` always leaves the spring aimed at the requested target,
whether or not it had to unsettle the spring. -/
lemma Spring.target_setTarget (s : Spring) (t : ℚ) : (s.setTarget t).target = t := by
  unfold Spring.setTarget
  split_ifs with h
  · rfl
  · exact (not_ne_iff.mp h).symm

set_option maxRecDepth 8000 in
/-- C1 (counterexample): the claim that a failed call leaves the stored
configuration untouched is false.  On a default kernel over the base
registry, `setVibe("zen")` fails (unknown token, resolution throws), yet
afterwards the stored configuration carries `vibe = "zen"` instead of the
prior `"calm"`: the field is assigned before resolution runs, and the
exception does not roll it back. -/
theorem setVibe_unknown_token_mutates_config :
    (SMNTCKernel.new baseRegistry {}).isOk = true ∧
    (k0.setVibe baseRegistry "zen").2 = false ∧
    (k0.setVibe baseRegistry "zen").1.config.vibe = "zen" ∧
    k0.config.vibe = "calm" := by
  exact ⟨rfl, rfl, rfl, rfl⟩

set_option maxRecDepth 8000 in
/-- C1 (amended): when a semantic setter (`setVibe`, `setSurface`,
`setPalette`) or `configure` is called with a configuration whose
resolution fails, the call fails and everything except the just-assigned
configuration field — the uniforms, the resolved constants, every spring
target, the auto-scaler — is exactly as before the call: resolution is
all-or-nothing before any spring target is touched, but the stored
configuration already holds the new (unresolvable) value. -/
theorem setters_failed_resolution_all_or_nothing (reg : Registry) (k : SMNTCKernel)
    (v : String) (p : SMNTCConfig) :
    ((k.setVibe reg v).2 = false →
      (k.setVibe reg v).1 = { k with config := { k.config with vibe := v } }) ∧
    ((k.setSurface reg v).2 = false →
      (k.setSurface reg v).1 = { k with config := { k.config with surface := v } }) ∧
    ((k.setPalette reg v).2 = false →
      (k.setPalette reg v).1 = { k with config := { k.config with palette := v } }) ∧
    ((k.configure reg p).2 = false →
      (k.configure reg p).1 = { k with config := assignConfig k.config p }) := by
  refine ⟨?_, ?_, ?_, ?_⟩
  · intro h
    rcases hres : resolveConstants reg (toSparse { k.config with vibe := v }) with e | c
    · simp [SMNTCKernel.setVibe, hres]
    · simp [SMNTCKernel.setVibe, hres] at h
  · intro h
    rcases hres : resolveConstants reg (toSparse { k.config with surface := v }) with e | c
    · simp [SMNTCKernel.setSurface, hres]
    · simp [SMNTCKernel.setSurface, hres] at h
  · intro h
    rcases hres : resolveConstants reg (toSparse { k.config with palette := v }) with e | c
    · simp [SMNTCKernel.setPalette, hres]
    · simp [SMNTCKernel.setPalette, hres] at h
  · intro h
    rcases hres : resolveConstants reg (toSparse (assignConfig k.config p)) with e | c
    · simp [SMNTCKernel.configure, hres]
    · simp [SMNTCKernel.configure, hres] at h

set_option maxRecDepth 8000 in
/-- C1 (witness): the amended theorem at the concrete failing calls
`setVibe("zen")` and `configure({vibe: "zen"})` on the default kernel. -/
theorem setters_failed_resolution_all_or_nothing_witness :
    (k0.setVibe baseRegistry "zen").1 =
      { k0 with config := { k0.config with vibe := "zen" } } ∧
    (k0.configure baseRegistry { vibe := some "zen" }).1 =
      { k0 with config := assignConfig k0.config { vibe := some "zen" } } :=
  ⟨(setters_failed_resolution_all_or_nothing baseRegistry k0 "zen" { vibe := some "zen" }).1 rfl,
   (setters_failed_resolution_all_or_nothing baseRegistry k0 "zen" { vibe := some "zen" }).2.2.2 rfl⟩

set_option maxRecDepth 8000 in
/-- C4 (counterexample): a disposed kernel is not permanently unusable.
After `dispose()`, `setVibe("chaotic")` succeeds silently: it mutates the
stored configuration (`vibe` becomes `"chaotic"`) and retargets the cached
springs (the frequency spring's target moves from calm's 0.5 to chaotic's
5.0) — only `update()` is guarded by the disposed flag. -/
theorem dispose_not_permanently_unusable :
    (k0.dispose.setVibe baseRegistry "chaotic").2 = true ∧
    (k0.dispose.setVibe baseRegistry "chaotic").1.config.vibe = "chaotic" ∧
    k0.dispose.config.vibe = "calm" ∧
    (k0.dispose.setVibe baseRegistry "chaotic").1.sp.frequency.target = 5 ∧
    k0.dispose.sp.frequency.target = 1/2 := by
  refine ⟨rfl, rfl, rfl, ?_, rfl⟩
  show (Spring.setTarget k0.dispose.sp.frequency 5).target = 5
  exact Spring.target_setTarget _ 5

/-- C4 (amended): after `dispose()`, `update()` is a no-op that leaves the
kernel state unchanged, but the semantic setters and `configure` are not
guarded: they still mutate the stored configuration (and, on successful
resolution, the cached spring targets) exactly as before disposal. -/
theorem dispose_guards_update_only (reg : Registry) (k : SMNTCKernel)
    (dt elapsed now : ℚ) (v : String) (p : SMNTCConfig) :
    k.dispose.update reg dt elapsed now = (k.dispose, true) ∧
    (k.dispose.setVibe reg v).1.config.vibe = v ∧
    (k.dispose.configure reg p).1.config = assignConfig k.dispose.config p := by
  refine ⟨?_, ?_, ?_⟩
  · simp [SMNTCKernel.update, SMNTCKernel.dispose]
  · rcases hres : resolveConstants reg (toSparse { k.dispose.config with vibe := v }) with e | c <;>
      simp [SMNTCKernel.setVibe, hres]
  · rcases hres : resolveConstants reg (toSparse (assignConfig k.dispose.config p)) with e | c <;>
      simp [SMNTCKernel.configure, hres]
